import Mathlib

/-!
Verification of the Sitelutions DDNS client core
(`src/Sitelutions-DDNS-Client/ddns_updater.py`).

The embedding models the update-engine methods of `DDNSUpdaterApp`:
`perform_update`, `auto_update_loop`, `start_auto_update`, `stop_auto_update`
and `get_interval_ms`.  Network I/O is made explicit: each `requests.get` call
is driven by a `NetOutcome` oracle (a delivered HTTP response, or a raised
`requests.RequestException` carrying its message string), and every issued
request is recorded as a `GetRequest` value so that claims about "zero network
calls" or request contents can be stated.  Log lines are recorded without the
`[timestamp] ` prefix that `log_message` prepends, since timestamps come from
the wall clock and no claim depends on them.
-/

namespace DDNS

/-- An HTTP response as delivered by the `requests` library: the final status
code and the decoded body text (`response.text`). -/
structure HttpResponse where
  status : Nat
  body : String
deriving Repr, DecidableEq

/-- Outcome of one `requests.get` call: either a response is delivered
(whatever its status code), or the call raises `requests.RequestException`
(connection error / timeout), carrying the exception message `str(e)`. -/
inductive NetOutcome where
  | response : HttpResponse → NetOutcome
  | requestException : String → NetOutcome
deriving Repr, DecidableEq

/-- One outbound HTTP GET request exactly as the code issues it: URL, query
parameters in order, and the `timeout=` argument in seconds. -/
structure GetRequest where
  url : String
  params : List (String × String)
  timeoutSeconds : Nat
deriving Repr, DecidableEq

/-- Semantics of `Response.raise_for_status` in the `requests` library: it
raises `HTTPError` exactly for client-error (400-499) and server-error
(500-599) status codes; any other delivered status passes through. -/
def raise_for_status (r : HttpResponse) : Bool :=
  (400 ≤ r.status && r.status < 500) || (500 ≤ r.status && r.status < 600)

/-- The tagged `UpdateResult` of the specification, used here to name which
branch of `perform_update` a run took (the Python method itself returns
`None` and reports only through the log). -/
inductive UpdateResult where
  | missingCredentials : UpdateResult
  | resolveFailure (cause : String) : UpdateResult
  | updateFailure (ip cause : String) : UpdateResult
  | success (ip serverMessage : String) : UpdateResult
deriving Repr, DecidableEq

/-- Everything observable about one run of `perform_update`: the branch taken,
the log lines emitted in order, and the network requests issued in order. -/
structure UpdateRun where
  result : UpdateResult
  logLines : List String
  requests : List GetRequest
deriving Repr, DecidableEq

/-- Python `str.strip()` with no argument: drop leading and trailing
whitespace.  Implemented structurally on the character list so that the
kernel can evaluate it (Lean's own `String.trim` reduces poorly). -/
def strip (s : String) : String :=
  ⟨((s.data.dropWhile Char.isWhitespace).reverse.dropWhile Char.isWhitespace).reverse⟩

/-- The fixed IP-resolution request:
`requests.get('https://api2.sitelutions.com/myip', timeout=10)`. -/
def myipRequest : GetRequest :=
  { url := "https://api2.sitelutions.com/myip", params := [], timeoutSeconds := 10 }

/-- The DNS-update request:
`requests.get("https://api2.sitelutions.com/dnsup", params=..., timeout=10)`
with `params = {user, pass, id, ip, ttl:60}`. -/
def dnsupRequest (email apiKey recordId ip : String) : GetRequest :=
  { url := "https://api2.sitelutions.com/dnsup"
    params := [("user", email), ("pass", apiKey), ("id", recordId),
               ("ip", ip), ("ttl", "60")]
    timeoutSeconds := 10 }

/-- `DDNSUpdaterApp.perform_update` (ddns_updater.py lines 125-153), with the
three entry-field reads passed in as arguments and the two `requests.get`
calls driven by the `resolveNet` / `updateNet` oracles.  Faithful details:
the credential check is Python `not all([record_id, email, api_key])`, i.e.
any empty string; the `myip` call takes `.text.strip()` directly with no
`raise_for_status`, so any delivered response body is accepted as the IP;
only the `dnsup` call goes through `raise_for_status`.  The `HTTPError`
message raised by `raise_for_status` is abbreviated here to its status code
(no claim inspects that text). -/
def perform_update (recordId email apiKey : String)
    (resolveNet updateNet : NetOutcome) : UpdateRun :=
  if recordId = "" ∨ email = "" ∨ apiKey = "" then
    { result := .missingCredentials
      logLines := ["ERROR: Record ID, Email, and API Key fields are required."]
      requests := [] }
  else
    let fetching := "Fetching public IP address from api2.sitelutions.com/myip..."
    match resolveNet with
    | .requestException e =>
      { result := .resolveFailure e
        logLines := [fetching, "ERROR: Could not get public IP. Details: " ++ e]
        requests := [myipRequest] }
    | .response r =>
      let publicIp := strip r.body
      let found := "Public IP found: " ++ publicIp
      let sending := "Sending DNS update request to Sitelutions API..."
      let updReq := dnsupRequest email apiKey recordId publicIp
      match updateNet with
      | .requestException e =>
        { result := .updateFailure publicIp e
          logLines := [fetching, found, sending,
                       "ERROR: API request failed. Details: " ++ e]
          requests := [myipRequest, updReq] }
      | .response ur =>
        if raise_for_status ur then
          { result := .updateFailure publicIp ("HTTPError: status " ++ toString ur.status)
            logLines := [fetching, found, sending,
                         "ERROR: API request failed. Details: HTTPError: status "
                           ++ toString ur.status]
            requests := [myipRequest, updReq] }
        else
          { result := .success publicIp (strip ur.body)
            logLines := [fetching, found, sending,
                         "SUCCESS: Server Response: " ++ strip ur.body]
            requests := [myipRequest, updReq] }

/-- The mutable state of `DDNSUpdaterApp` relevant to the scheduler: the three
credential entry fields, the interval combobox variable, `is_running`,
`after_id` (the pending `root.after` timer, modelled as the armed delay in
milliseconds), the Start button's enabled state (toggled by
`set_controls_state`; initially enabled), and the log area as a list of
messages. -/
structure AppState where
  recordId : String
  email : String
  apiKey : String
  intervalVar : String
  isRunning : Bool
  afterId : Option Nat
  startEnabled : Bool
  log : List String
deriving Repr, DecidableEq

/-- `DDNSUpdaterApp.get_interval_ms` (lines 218-220): the fixed
interval-string-to-milliseconds map, with `dict.get` default 0 for any
string outside the map. -/
def get_interval_ms (interval : String) : Nat :=
  if interval = "60 minutes" then 3600000
  else if interval = "4 hours" then 14400000
  else if interval = "6 hours" then 21600000
  else if interval = "24 hours" then 86400000
  else 0

/-- The interval values offered by the combobox
(`self.interval_combo['values']`). -/
def enumeratedIntervals : List String :=
  ["60 minutes", "4 hours", "6 hours", "24 hours"]

/-- One firing of `DDNSUpdaterApp.auto_update_loop` (lines 176-180): perform
one update, then re-arm `root.after(interval_ms, auto_update_loop)` exactly
when the computed interval is positive and `is_running` still holds.  The
function is total: `perform_update` catches every `RequestException`, so no
outcome escapes as an exception. -/
def auto_update_loop (s : AppState) (resolveNet updateNet : NetOutcome) :
    AppState × UpdateRun :=
  let run := perform_update s.recordId s.email s.apiKey resolveNet updateNet
  let s1 := { s with log := s.log ++ run.logLines }
  let ims := get_interval_ms s1.intervalVar
  if 0 < ims ∧ s1.isRunning = true then ({ s1 with afterId := some ims }, run)
  else (s1, run)

/-- `DDNSUpdaterApp.start_auto_update` (lines 182-190): rejected only when the
interval string is empty (Python `if not self.interval_var.get()`); otherwise
sets `is_running`, disables the Start button via `set_controls_state`, saves
settings (which logs "Settings saved."), logs the start message, and enters
`auto_update_loop`.  Returns the new state and the update run performed
(`none` when rejected, so no update ran). -/
def start_auto_update (s : AppState) (resolveNet updateNet : NetOutcome) :
    AppState × Option UpdateRun :=
  if s.intervalVar = "" then
    ({ s with log := s.log ++ ["ERROR: Please select an update interval."] }, none)
  else
    let s1 : AppState :=
      { s with
        isRunning := true
        startEnabled := false
        log := s.log ++ ["Settings saved.",
          "Automatic updates started with interval: " ++ s.intervalVar ++ "."] }
    let p := auto_update_loop s1 resolveNet updateNet
    (p.1, some p.2)

/-- `DDNSUpdaterApp.stop_auto_update` (lines 192-198): clear `is_running`,
cancel the pending timer if any, re-enable the Start button, log. -/
def stop_auto_update (s : AppState) : AppState :=
  let s1 := { s with isRunning := false }
  let s2 := match s1.afterId with
    | some _ => { s1 with afterId := none }
    | none => s1
  { s2 with
    startEnabled := true
    log := s2.log ++ ["Automatic updates stopped."] }

/-- Pressing the Start button: Tk delivers the widget's `command` callback only
while the widget is enabled, and `set_controls_state("running")` disables the
Start button for the whole time the scheduler runs.  A click on the disabled
button does nothing at all. -/
def clickStart (s : AppState) (resolveNet updateNet : NetOutcome) :
    AppState × Option UpdateRun :=
  if s.startEnabled = true then start_auto_update s resolveNet updateNet
  else (s, none)

/-- The IP a branch of `UpdateResult` carries, when it carries one. -/
def resultIp : UpdateResult → Option String
  | .success ip _ => some ip
  | .updateFailure ip _ => some ip
  | _ => none

/-- Whether the `dnsup` step fails under outcome `un`: the call raised
`RequestException`, or the delivered status makes `raise_for_status` raise. -/
def updaterFails : NetOutcome → Bool
  | .requestException _ => true
  | .response r => raise_for_status r

/-- Decidable substring test used to state claims about log-line contents. -/
def strContains (s pat : String) : Bool :=
  (List.range (s.toList.length + 1)).any
    (fun i => ((s.toList.drop i).take pat.toList.length) == pat.toList)

end DDNS


namespace DDNS

/-- C6: with any empty credential field, `perform_update` takes the
missing-credentials branch (one error log line) and issues no network
request at all — neither the `myip` resolve call nor the `dnsup` update
call happens. -/
theorem missing_credentials_no_network (recordId email apiKey : String)
    (rn un : NetOutcome) (h : recordId = "" ∨ email = "" ∨ apiKey = "") :
    (perform_update recordId email apiKey rn un).result = UpdateResult.missingCredentials
    ∧ (perform_update recordId email apiKey rn un).requests = [] := by
  unfold perform_update
  rw [if_pos h]
  exact ⟨rfl, rfl⟩

theorem missing_credentials_no_network_witness :
    (perform_update "" "a@b.com" "k1" (NetOutcome.response ⟨200, "1.2.3.4"⟩)
        (NetOutcome.response ⟨200, "good"⟩)).result = UpdateResult.missingCredentials
    ∧ (perform_update "" "a@b.com" "k1" (NetOutcome.response ⟨200, "1.2.3.4"⟩)
        (NetOutcome.response ⟨200, "good"⟩)).requests = [] :=
  missing_credentials_no_network "" "a@b.com" "k1" _ _ (Or.inl rfl)

/-- C7: with non-empty credentials, a `RequestException` on the `myip` call
makes the run a resolve failure, and the only request issued is the `myip`
one — the `dnsup` updater is never invoked on that run. -/
theorem resolve_failure_skips_updater (recordId email apiKey e : String)
    (un : NetOutcome) (h1 : ¬ recordId = "") (h2 : ¬ email = "") (h3 : ¬ apiKey = "") :
    (perform_update recordId email apiKey (NetOutcome.requestException e) un).result
      = UpdateResult.resolveFailure e
    ∧ (perform_update recordId email apiKey (NetOutcome.requestException e) un).requests
      = [myipRequest] := by
  unfold perform_update
  rw [if_neg (by simp [h1, h2, h3])]
  exact ⟨rfl, rfl⟩

theorem resolve_failure_skips_updater_witness :
    (perform_update "42" "a@b.com" "k1" (NetOutcome.requestException "timeout")
        (NetOutcome.response ⟨200, "good"⟩)).result = UpdateResult.resolveFailure "timeout"
    ∧ (perform_update "42" "a@b.com" "k1" (NetOutcome.requestException "timeout")
        (NetOutcome.response ⟨200, "good"⟩)).requests = [myipRequest] :=
  resolve_failure_skips_updater "42" "a@b.com" "k1" "timeout" _
    (by decide) (by decide) (by decide)

/-- C2 counterexample: on the spec's concrete scenario the run does return
`Success{ip:"203.0.113.5", serverMessage:"good 203.0.113.5"}` as claimed,
but it emits four log lines, not two. -/
theorem concrete_scenario_two_log_lines_cex :
    (perform_update "42" "a@b.com" "k1" (NetOutcome.response ⟨200, "203.0.113.5"⟩)
        (NetOutcome.response ⟨200, "good 203.0.113.5"⟩)).result
      = UpdateResult.success "203.0.113.5" "good 203.0.113.5"
    ∧ (perform_update "42" "a@b.com" "k1" (NetOutcome.response ⟨200, "203.0.113.5"⟩)
        (NetOutcome.response ⟨200, "good 203.0.113.5"⟩)).logLines.length = 4
    ∧ ¬ (perform_update "42" "a@b.com" "k1" (NetOutcome.response ⟨200, "203.0.113.5"⟩)
        (NetOutcome.response ⟨200, "good 203.0.113.5"⟩)).logLines.length = 2 := by
  decide

/-- C2 (amended): the concrete scenario produces
`Success{ip:"203.0.113.5", serverMessage:"good 203.0.113.5"}`, emits exactly
four log lines — two for the resolve step (the fetch attempt and the found
IP) and two for the update step (the send attempt and the server response) —
and issues exactly the two expected GET requests. -/
theorem concrete_scenario_success_four_log_lines :
    perform_update "42" "a@b.com" "k1" (NetOutcome.response ⟨200, "203.0.113.5"⟩)
        (NetOutcome.response ⟨200, "good 203.0.113.5"⟩)
      = { result := UpdateResult.success "203.0.113.5" "good 203.0.113.5"
          logLines := ["Fetching public IP address from api2.sitelutions.com/myip...",
                       "Public IP found: 203.0.113.5",
                       "Sending DNS update request to Sitelutions API...",
                       "SUCCESS: Server Response: good 203.0.113.5"]
          requests := [myipRequest, dnsupRequest "a@b.com" "k1" "42" "203.0.113.5"] } := by
  decide

/-- C3 counterexample: a delivered 500 response on the `myip` call is NOT a
resolve failure — `perform_update` calls no `raise_for_status` on it, so the
stripped non-2xx body ("oops") is taken as the IP, the updater is still
invoked (two requests issued), and the run even succeeds. -/
theorem resolver_non2xx_not_error_cex :
    (perform_update "42" "a@b.com" "k1" (NetOutcome.response ⟨500, "oops"⟩)
        (NetOutcome.response ⟨200, "good oops"⟩)).result
      = UpdateResult.success "oops" "good oops"
    ∧ (perform_update "42" "a@b.com" "k1" (NetOutcome.response ⟨500, "oops"⟩)
        (NetOutcome.response ⟨200, "good oops"⟩)).requests.length = 2 := by
  decide

/-- C3 (amended): the resolve step fails only when `requests.get` itself
raises (transport error / timeout); any delivered response — whatever its
HTTP status — has its stripped body taken as the resolved IP with no syntax
validation, and the produced result carries exactly that string. -/
theorem resolver_ignores_http_status (recordId email apiKey e : String)
    (h1 : ¬ recordId = "") (h2 : ¬ email = "") (h3 : ¬ apiKey = "")
    (r : HttpResponse) (un : NetOutcome) :
    resultIp (perform_update recordId email apiKey (NetOutcome.response r) un).result
      = some (strip r.body)
    ∧ (∀ c, ¬ (perform_update recordId email apiKey (NetOutcome.response r) un).result
        = UpdateResult.resolveFailure c)
    ∧ (perform_update recordId email apiKey (NetOutcome.requestException e) un).result
      = UpdateResult.resolveFailure e := by
  refine ⟨?_, ?_, ?_⟩
  · cases un with
    | requestException e2 => simp [perform_update, h1, h2, h3, resultIp]
    | response ur =>
      by_cases hr : raise_for_status ur = true <;>
        simp [perform_update, h1, h2, h3, hr, resultIp]
  · intro c
    cases un with
    | requestException e2 => simp [perform_update, h1, h2, h3]
    | response ur =>
      by_cases hr : raise_for_status ur = true <;>
        simp [perform_update, h1, h2, h3, hr]
  · simp [perform_update, h1, h2, h3]

theorem resolver_ignores_http_status_witness :
    resultIp (perform_update "42" "a@b.com" "k1" (NetOutcome.response ⟨500, " 9.9.9.9 "⟩)
        (NetOutcome.response ⟨200, "ok"⟩)).result = some "9.9.9.9"
    ∧ (∀ c, ¬ (perform_update "42" "a@b.com" "k1" (NetOutcome.response ⟨500, " 9.9.9.9 "⟩)
        (NetOutcome.response ⟨200, "ok"⟩)).result = UpdateResult.resolveFailure c)
    ∧ (perform_update "42" "a@b.com" "k1" (NetOutcome.requestException "down")
        (NetOutcome.response ⟨200, "ok"⟩)).result = UpdateResult.resolveFailure "down" :=
  resolver_ignores_http_status "42" "a@b.com" "k1" "down"
    (by decide) (by decide) (by decide) ⟨500, " 9.9.9.9 "⟩ (NetOutcome.response ⟨200, "ok"⟩)

end DDNS

namespace DDNS

/-- C1 counterexample: `start_auto_update` does NOT reject the non-empty
unknown interval "5 hours" (its guard is only `if not self.interval_var.get()`).
From Idle, Start with "5 hours" flips `is_running` to true and performs one
full update operation (both network requests issued), contradicting "the
SchedulerState stays Idle and no Update Operation is performed". -/
theorem start_unknown_interval_accepted_cex :
    ¬ "5 hours" ∈ enumeratedIntervals
    ∧ (start_auto_update ⟨"42", "a@b.com", "k1", "5 hours", false, none, true, []⟩
        (NetOutcome.response ⟨200, "203.0.113.5"⟩)
        (NetOutcome.response ⟨200, "good"⟩)).1.isRunning = true
    ∧ ((start_auto_update ⟨"42", "a@b.com", "k1", "5 hours", false, none, true, []⟩
        (NetOutcome.response ⟨200, "203.0.113.5"⟩)
        (NetOutcome.response ⟨200, "good"⟩)).2.map
          (fun run => run.requests.length)) = some 2 := by
  decide

/-- C1 (amended): `start_auto_update` rejects only an empty interval
selection — then the state stays Idle and no update operation runs.  A
non-empty interval outside the enumerated set is accepted: the scheduler
enters Running and performs one immediate update operation, but
`get_interval_ms` maps the unknown string to 0 so the timer is never armed
(`after_id` is unchanged) and no zero-interval looping occurs. -/
theorem start_rejects_only_empty_interval (s : AppState) (rn un : NetOutcome)
    (h0 : s.isRunning = false) :
    (s.intervalVar = "" →
      (start_auto_update s rn un).1.isRunning = false
      ∧ (start_auto_update s rn un).2 = none)
    ∧ (¬ s.intervalVar = "" → get_interval_ms s.intervalVar = 0 →
      (start_auto_update s rn un).1.isRunning = true
      ∧ (start_auto_update s rn un).2.isSome = true
      ∧ (start_auto_update s rn un).1.afterId = s.afterId) := by
  constructor
  · intro he
    simp [start_auto_update, he, h0]
  · intro he hz
    simp [start_auto_update, auto_update_loop, he, hz]

theorem start_rejects_only_empty_interval_witness :
    ((start_auto_update ⟨"42", "a@b.com", "k1", "", false, none, true, []⟩
        (NetOutcome.response ⟨200, "1.2.3.4"⟩)
        (NetOutcome.response ⟨200, "good"⟩)).1.isRunning = false
      ∧ (start_auto_update ⟨"42", "a@b.com", "k1", "", false, none, true, []⟩
        (NetOutcome.response ⟨200, "1.2.3.4"⟩)
        (NetOutcome.response ⟨200, "good"⟩)).2 = none)
    ∧ ((start_auto_update ⟨"42", "a@b.com", "k1", "5 hours", false, none, true, []⟩
        (NetOutcome.response ⟨200, "1.2.3.4"⟩)
        (NetOutcome.response ⟨200, "good"⟩)).1.isRunning = true
      ∧ (start_auto_update ⟨"42", "a@b.com", "k1", "5 hours", false, none, true, []⟩
        (NetOutcome.response ⟨200, "1.2.3.4"⟩)
        (NetOutcome.response ⟨200, "good"⟩)).2.isSome = true
      ∧ (start_auto_update ⟨"42", "a@b.com", "k1", "5 hours", false, none, true, []⟩
        (NetOutcome.response ⟨200, "1.2.3.4"⟩)
        (NetOutcome.response ⟨200, "good"⟩)).1.afterId = none) :=
  ⟨(start_rejects_only_empty_interval
      ⟨"42", "a@b.com", "k1", "", false, none, true, []⟩ _ _ rfl).1 rfl,
   (start_rejects_only_empty_interval
      ⟨"42", "a@b.com", "k1", "5 hours", false, none, true, []⟩ _ _ rfl).2
      (by decide) (by decide)⟩

/-- C4 counterexample: after a Start from Idle (state now Running), pressing
Start again changes nothing at all — in particular NO error is logged,
contradicting the claim's "rejected as a no-op that logs an error".  The
protection is the disabled Start button, not a guard in the handler, and it
is silent. -/
theorem second_start_logs_no_error_cex :
    (start_auto_update ⟨"42", "a@b.com", "k1", "4 hours", false, none, true, []⟩
        (NetOutcome.response ⟨200, "1.2.3.4"⟩)
        (NetOutcome.response ⟨200, "good"⟩)).1.isRunning = true
    ∧ clickStart (start_auto_update ⟨"42", "a@b.com", "k1", "4 hours", false, none, true, []⟩
        (NetOutcome.response ⟨200, "1.2.3.4"⟩)
        (NetOutcome.response ⟨200, "good"⟩)).1
        (NetOutcome.response ⟨200, "1.2.3.4"⟩) (NetOutcome.response ⟨200, "good"⟩)
      = ((start_auto_update ⟨"42", "a@b.com", "k1", "4 hours", false, none, true, []⟩
        (NetOutcome.response ⟨200, "1.2.3.4"⟩)
        (NetOutcome.response ⟨200, "good"⟩)).1, none) := by
  decide

/-- C4 (amended): a second Start while the scheduler is Running is prevented
by the GUI — `set_controls_state("running")` disables the Start button for
the whole run, so the click is a silent no-op: state machine, timer and
in-progress loop are unchanged, no additional update operation is triggered,
and no error is logged (`start_auto_update` itself has no Running guard). -/
theorem second_start_silent_noop (s : AppState) (rn un rn2 un2 : NetOutcome)
    (h : ¬ s.intervalVar = "") :
    (start_auto_update s rn un).1.isRunning = true
    ∧ (start_auto_update s rn un).1.startEnabled = false
    ∧ clickStart (start_auto_update s rn un).1 rn2 un2
        = ((start_auto_update s rn un).1, none) := by
  simp only [start_auto_update, auto_update_loop, clickStart]
  rw [if_neg h]
  split <;> simp

theorem second_start_silent_noop_witness :
    (start_auto_update ⟨"42", "a@b.com", "k1", "4 hours", false, none, true, []⟩
        (NetOutcome.requestException "down")
        (NetOutcome.response ⟨200, "good"⟩)).1.isRunning = true
    ∧ (start_auto_update ⟨"42", "a@b.com", "k1", "4 hours", false, none, true, []⟩
        (NetOutcome.requestException "down")
        (NetOutcome.response ⟨200, "good"⟩)).1.startEnabled = false
    ∧ clickStart (start_auto_update ⟨"42", "a@b.com", "k1", "4 hours", false, none, true, []⟩
        (NetOutcome.requestException "down")
        (NetOutcome.response ⟨200, "good"⟩)).1
        (NetOutcome.requestException "down") (NetOutcome.response ⟨200, "good"⟩)
      = ((start_auto_update ⟨"42", "a@b.com", "k1", "4 hours", false, none, true, []⟩
        (NetOutcome.requestException "down")
        (NetOutcome.response ⟨200, "good"⟩)).1, none) :=
  second_start_silent_noop ⟨"42", "a@b.com", "k1", "4 hours", false, none, true, []⟩
    _ _ _ _ (by decide)

/-- C5 counterexample: when the updater times out, the failure log line is
"ERROR: API request failed. Details: " ++ the exception text, which does not
contain the resolved IP — only the earlier "Public IP found" line names it.
This contradicts "the failure report (log line) names that resolved IP". -/
theorem update_failure_log_line_lacks_ip_cex :
    (perform_update "42" "a@b.com" "k1" (NetOutcome.response ⟨200, "203.0.113.5"⟩)
        (NetOutcome.requestException "Read timed out. (read timeout=10)")).result
      = UpdateResult.updateFailure "203.0.113.5" "Read timed out. (read timeout=10)"
    ∧ strContains
        ((perform_update "42" "a@b.com" "k1" (NetOutcome.response ⟨200, "203.0.113.5"⟩)
          (NetOutcome.requestException "Read timed out. (read timeout=10)")).logLines.getLastD "")
        "203.0.113.5" = false
    ∧ strContains
        ((perform_update "42" "a@b.com" "k1" (NetOutcome.response ⟨200, "203.0.113.5"⟩)
          (NetOutcome.requestException "Read timed out. (read timeout=10)")).logLines.getLastD "")
        "ERROR: API request failed." = true := by
  decide

/-- C5 (amended): whenever the resolver delivers a response and the updater
step fails (exception or 4xx/5xx status), the run is classified
`UpdateFailure{ip, cause}` carrying exactly the stripped resolved IP, and
the run's log names that IP via the "Public IP found:" line; the failure
line itself reports only the cause. -/
theorem update_failure_carries_resolved_ip (recordId email apiKey : String)
    (h1 : ¬ recordId = "") (h2 : ¬ email = "") (h3 : ¬ apiKey = "")
    (r : HttpResponse) (un : NetOutcome) (hf : updaterFails un = true) :
    (∃ cause, (perform_update recordId email apiKey (NetOutcome.response r) un).result
        = UpdateResult.updateFailure (strip r.body) cause)
    ∧ ("Public IP found: " ++ strip r.body)
        ∈ (perform_update recordId email apiKey (NetOutcome.response r) un).logLines := by
  cases un with
  | requestException e =>
    refine ⟨⟨e, ?_⟩, ?_⟩ <;> simp [perform_update, h1, h2, h3]
  | response ur =>
    have hr : raise_for_status ur = true := by simpa [updaterFails] using hf
    refine ⟨⟨"HTTPError: status " ++ toString ur.status, ?_⟩, ?_⟩ <;>
      simp [perform_update, h1, h2, h3, hr]

theorem update_failure_carries_resolved_ip_witness :
    (∃ cause, (perform_update "42" "a@b.com" "k1" (NetOutcome.response ⟨200, "203.0.113.5"⟩)
        (NetOutcome.requestException "boom")).result
        = UpdateResult.updateFailure "203.0.113.5" cause)
    ∧ "Public IP found: 203.0.113.5"
        ∈ (perform_update "42" "a@b.com" "k1" (NetOutcome.response ⟨200, "203.0.113.5"⟩)
            (NetOutcome.requestException "boom")).logLines :=
  update_failure_carries_resolved_ip "42" "a@b.com" "k1"
    (by decide) (by decide) (by decide) ⟨200, "203.0.113.5"⟩
    (NetOutcome.requestException "boom") rfl

end DDNS

namespace DDNS

/-- C8 counterexample: a delivered 304 response on the `dnsup` call is
non-2xx, yet the updater step does NOT fail — `raise_for_status` raises only
for 400-599, so the run is classified Success with the 304 body as the
server message, contradicting "a non-2xx status ... makes the Updater step
fail". -/
theorem updater_304_success_cex :
    (perform_update "42" "a@b.com" "k1" (NetOutcome.response ⟨200, "1.2.3.4"⟩)
        (NetOutcome.response ⟨304, "not modified"⟩)).result
      = UpdateResult.success "1.2.3.4" "not modified" := by
  decide

/-- C8 (amended): on every updater invocation exactly one GET request goes to
the fixed `dnsup` endpoint, carrying `user` (account), `pass` (secret), `id`
(record), `ip` (the stripped resolved IP) and the fixed `ttl=60`, with a
10-second timeout; a 4xx or 5xx status or a transport error makes the
updater step fail (`raise_for_status` raises only for 400-599, so other
non-2xx statuses such as 304 pass as success), and on success the raw
stripped response body is returned verbatim as the server message. -/
theorem dnsup_request_shape_and_outcome (recordId email apiKey : String)
    (r : HttpResponse) (un : NetOutcome)
    (h1 : ¬ recordId = "") (h2 : ¬ email = "") (h3 : ¬ apiKey = "") :
    ((perform_update recordId email apiKey (NetOutcome.response r) un).requests.filter
        (fun q => q.url == "https://api2.sitelutions.com/dnsup"))
      = [dnsupRequest email apiKey recordId (strip r.body)]
    ∧ (dnsupRequest email apiKey recordId (strip r.body)).timeoutSeconds = 10
    ∧ (dnsupRequest email apiKey recordId (strip r.body)).params
        = [("user", email), ("pass", apiKey), ("id", recordId),
           ("ip", strip r.body), ("ttl", "60")]
    ∧ (updaterFails un = true →
        ∃ cause, (perform_update recordId email apiKey (NetOutcome.response r) un).result
          = UpdateResult.updateFailure (strip r.body) cause)
    ∧ (∀ ur, un = NetOutcome.response ur → raise_for_status ur = false →
        (perform_update recordId email apiKey (NetOutcome.response r) un).result
          = UpdateResult.success (strip r.body) (strip ur.body)) := by
  refine ⟨?_, rfl, rfl, ?_, ?_⟩
  · cases un with
    | requestException e =>
        simp [perform_update, h1, h2, h3, myipRequest, dnsupRequest]
    | response ur =>
        by_cases hr : raise_for_status ur = true <;>
          simp [perform_update, h1, h2, h3, hr, myipRequest, dnsupRequest]
  · intro hf
    cases un with
    | requestException e => exact ⟨e, by simp [perform_update, h1, h2, h3]⟩
    | response ur =>
      have hr : raise_for_status ur = true := by simpa [updaterFails] using hf
      exact ⟨"HTTPError: status " ++ toString ur.status,
        by simp [perform_update, h1, h2, h3, hr]⟩
  · intro ur hun hr
    subst hun
    simp [perform_update, h1, h2, h3, hr]

theorem dnsup_request_shape_and_outcome_witness :
    ((perform_update "42" "a@b.com" "k1" (NetOutcome.response ⟨200, "1.2.3.4"⟩)
        (NetOutcome.response ⟨500, "BADAUTH"⟩)).requests.filter
        (fun q => q.url == "https://api2.sitelutions.com/dnsup"))
      = [dnsupRequest "a@b.com" "k1" "42" "1.2.3.4"]
    ∧ (∃ cause, (perform_update "42" "a@b.com" "k1" (NetOutcome.response ⟨200, "1.2.3.4"⟩)
        (NetOutcome.response ⟨500, "BADAUTH"⟩)).result
          = UpdateResult.updateFailure "1.2.3.4" cause)
    ∧ (perform_update "42" "a@b.com" "k1" (NetOutcome.response ⟨200, "1.2.3.4"⟩)
        (NetOutcome.response ⟨200, "good 1.2.3.4"⟩)).result
          = UpdateResult.success "1.2.3.4" "good 1.2.3.4" := by
  refine ⟨?_, ?_, ?_⟩
  · exact (dnsup_request_shape_and_outcome "42" "a@b.com" "k1" ⟨200, "1.2.3.4"⟩
      (NetOutcome.response ⟨500, "BADAUTH"⟩) (by decide) (by decide) (by decide)).1
  · exact (dnsup_request_shape_and_outcome "42" "a@b.com" "k1" ⟨200, "1.2.3.4"⟩
      (NetOutcome.response ⟨500, "BADAUTH"⟩) (by decide) (by decide) (by decide)).2.2.2.1
      (by decide)
  · exact (dnsup_request_shape_and_outcome "42" "a@b.com" "k1" ⟨200, "1.2.3.4"⟩
      (NetOutcome.response ⟨200, "good 1.2.3.4"⟩) (by decide) (by decide) (by decide)).2.2.2.2
      ⟨200, "good 1.2.3.4"⟩ rfl (by decide)

/-- C9: whatever the outcome of a cycle — in particular any non-Success
result, as hypothesised — a running scheduler with an enumerated interval
stays running and re-arms the timer with exactly the same configured
interval, and the only trace of the failure is the log lines appended to the
transcript (`auto_update_loop` and `perform_update` are total functions: no
outcome escapes as an exception). -/
theorem scheduler_survives_failed_cycle (s : AppState) (rn un : NetOutcome)
    (hrun : s.isRunning = true) (hint : s.intervalVar ∈ enumeratedIntervals)
    (hfail : ∀ ip m, ¬ (auto_update_loop s rn un).2.result = UpdateResult.success ip m) :
    (auto_update_loop s rn un).1.isRunning = true
    ∧ (auto_update_loop s rn un).1.afterId = some (get_interval_ms s.intervalVar)
    ∧ (auto_update_loop s rn un).1.intervalVar = s.intervalVar
    ∧ (auto_update_loop s rn un).1.log
        = s.log ++ (auto_update_loop s rn un).2.logLines := by
  have hpos : 0 < get_interval_ms s.intervalVar := by
    simp only [enumeratedIntervals, List.mem_cons, List.not_mem_nil, or_false] at hint
    rcases hint with h | h | h | h <;> rw [h] <;> decide
  simp [auto_update_loop, hpos, hrun]

theorem scheduler_survives_failed_cycle_witness :
    (auto_update_loop ⟨"42", "a@b.com", "k1", "4 hours", true, none, false, []⟩
        (NetOutcome.requestException "down") (NetOutcome.response ⟨200, "good"⟩)).1.isRunning = true
    ∧ (auto_update_loop ⟨"42", "a@b.com", "k1", "4 hours", true, none, false, []⟩
        (NetOutcome.requestException "down") (NetOutcome.response ⟨200, "good"⟩)).1.afterId
      = some 14400000
    ∧ (auto_update_loop ⟨"42", "a@b.com", "k1", "4 hours", true, none, false, []⟩
        (NetOutcome.requestException "down") (NetOutcome.response ⟨200, "good"⟩)).1.intervalVar
      = "4 hours"
    ∧ (auto_update_loop ⟨"42", "a@b.com", "k1", "4 hours", true, none, false, []⟩
        (NetOutcome.requestException "down") (NetOutcome.response ⟨200, "good"⟩)).1.log
      = [] ++ (auto_update_loop ⟨"42", "a@b.com", "k1", "4 hours", true, none, false, []⟩
        (NetOutcome.requestException "down") (NetOutcome.response ⟨200, "good"⟩)).2.logLines :=
  scheduler_survives_failed_cycle ⟨"42", "a@b.com", "k1", "4 hours", true, none, false, []⟩
    (NetOutcome.requestException "down") (NetOutcome.response ⟨200, "good"⟩)
    rfl (by decide) (fun ip m h => by simp [auto_update_loop, perform_update, get_interval_ms] at h)

/-- C10: `get_interval_ms` returns 0 for every string outside the enumerated
map and at least 3600000 ms for every string inside it, and
`auto_update_loop` changes the armed timer only when the computed interval is
strictly positive and the scheduler is still running — the delay armed is
exactly that positive interval, so the repeat timer is never armed with a
non-positive delay and an unrecognized interval never re-arms (at most the
one immediate update, no zero-delay busy loop). -/
theorem timer_never_armed_nonpositive :
    (∀ v, ¬ v ∈ enumeratedIntervals → get_interval_ms v = 0)
    ∧ (∀ v, v ∈ enumeratedIntervals → 3600000 ≤ get_interval_ms v)
    ∧ (∀ (s : AppState) (rn un : NetOutcome),
        ¬ (auto_update_loop s rn un).1.afterId = s.afterId →
          0 < get_interval_ms s.intervalVar ∧ s.isRunning = true
          ∧ (auto_update_loop s rn un).1.afterId
              = some (get_interval_ms s.intervalVar)) := by
  refine ⟨?_, ?_, ?_⟩
  · intro v hv
    simp only [enumeratedIntervals, List.mem_cons, List.not_mem_nil, or_false,
      not_or] at hv
    obtain ⟨n1, n2, n3, n4⟩ := hv
    simp [get_interval_ms, n1, n2, n3, n4]
  · intro v hv
    simp only [enumeratedIntervals, List.mem_cons, List.not_mem_nil, or_false] at hv
    rcases hv with h | h | h | h <;> rw [h] <;> decide
  · intro s rn un hch
    by_cases hc : 0 < get_interval_ms s.intervalVar ∧ s.isRunning = true
    · refine ⟨hc.1, hc.2, ?_⟩
      simp [auto_update_loop, hc.1, hc.2]
    · exfalso
      apply hch
      simp only [auto_update_loop]
      rw [if_neg hc]

theorem timer_never_armed_nonpositive_witness :
    get_interval_ms "90 minutes" = 0
    ∧ 3600000 ≤ get_interval_ms "60 minutes"
    ∧ (0 < get_interval_ms "4 hours"
        ∧ (⟨"42", "a@b.com", "k1", "4 hours", true, none, false, []⟩ : AppState).isRunning = true
        ∧ (auto_update_loop ⟨"42", "a@b.com", "k1", "4 hours", true, none, false, []⟩
            (NetOutcome.requestException "down")
            (NetOutcome.response ⟨200, "good"⟩)).1.afterId = some (get_interval_ms "4 hours")) :=
  ⟨timer_never_armed_nonpositive.1 "90 minutes" (by decide),
   timer_never_armed_nonpositive.2.1 "60 minutes" (by decide),
   timer_never_armed_nonpositive.2.2
     ⟨"42", "a@b.com", "k1", "4 hours", true, none, false, []⟩
     (NetOutcome.requestException "down") (NetOutcome.response ⟨200, "good"⟩)
     (by decide)⟩

end DDNS
